import Mathlib

/-!
Verification of the mDNS/DNS-SD publisher subsystem (PublisherMDnsSd,
file mdns_mdnssd.cpp) of the ot-br-posix border router agent.

The definitions below are a shallow embedding of the C++ source: machine
integers become Nat/Int, the mDNSResponder daemon is modelled by explicit
result parameters for the synchronously returned error codes, and the
side effects of an operation (daemon calls, callback invocations, map
stores) are collected into an explicit event trace. Helpers of the base
class Publisher (mdns.cpp) that are not among the provided sources are
modelled from the specification and carry a doc comment saying so.
-/

namespace OtbrMdns

/-- Internal error codes (the otbrError enum values used by the publisher). -/
inductive OtbrError where
  | errNone
  | errNotFound
  | errInvalidArgs
  | errDuplicated
  | errNotImplemented
  | errInvalidState
  | errMdns
  | errAborted
deriving DecidableEq, Repr

def kDNSServiceErr_NoError : Int := 0

def kDNSServiceErr_Unknown : Int := -65537

def kDNSServiceErr_NoSuchName : Int := -65538

def kDNSServiceErr_NoMemory : Int := -65539

def kDNSServiceErr_BadParam : Int := -65540

def kDNSServiceErr_BadReference : Int := -65541

def kDNSServiceErr_BadFlags : Int := -65543

def kDNSServiceErr_Unsupported : Int := -65544

def kDNSServiceErr_NameConflict : Int := -65548

def kDNSServiceErr_Invalid : Int := -65549

def kDNSServiceErr_BadInterfaceIndex : Int := -65552

def kDNSServiceErr_NoSuchRecord : Int := -65554

def kDNSServiceErr_NoSuchKey : Int := -65556

def kDNSServiceErr_ServiceNotRunning : Int := -65563

/-- Shallow embedding of DNSErrorToOtbrError: total mapping from a daemon
error code to the internal otbrError kind, with the default catch all. -/
def DNSErrorToOtbrError (aError : Int) : OtbrError :=
  if aError = kDNSServiceErr_NoError then OtbrError.errNone
  else if aError = kDNSServiceErr_NoSuchKey ∨ aError = kDNSServiceErr_NoSuchName ∨
      aError = kDNSServiceErr_NoSuchRecord then OtbrError.errNotFound
  else if aError = kDNSServiceErr_Invalid ∨ aError = kDNSServiceErr_BadParam ∨
      aError = kDNSServiceErr_BadFlags ∨ aError = kDNSServiceErr_BadInterfaceIndex then
    OtbrError.errInvalidArgs
  else if aError = kDNSServiceErr_NameConflict then OtbrError.errDuplicated
  else if aError = kDNSServiceErr_Unsupported then OtbrError.errNotImplemented
  else if aError = kDNSServiceErr_ServiceNotRunning then OtbrError.errInvalidState
  else OtbrError.errMdns

/-- Lexicographic (byte wise) comparison of character lists, the order used
by the std string less than operator that std sort applies to sub type
labels. -/
def charListLe : List Char → List Char → Bool
  | [], _ => true
  | _ :: _, [] => false
  | a :: as, b :: bs => if a < b then true else if a = b then charListLe as bs else false

/-- Lexical order on strings as used by std sort over std string. -/
def strLe (a b : String) : Bool :=
  charListLe a.data b.data

theorem charListLe_total : ∀ as bs, charListLe as bs = true ∨ charListLe bs as = true := by
  intro as
  induction as with
  | nil => intro bs; left; rfl
  | cons a as ih =>
    intro bs
    cases bs with
    | nil => right; rfl
    | cons b bs =>
      rcases lt_trichotomy a b with hab | hab | hab
      · left; simp [charListLe, hab]
      · subst hab
        rcases ih bs with h | h
        · left; simp [charListLe, lt_irrefl, h]
        · right; simp [charListLe, lt_irrefl, h]
      · right; simp [charListLe, hab]

theorem charListLe_trans :
    ∀ as bs cs, charListLe as bs = true → charListLe bs cs = true → charListLe as cs = true := by
  intro as
  induction as with
  | nil => intro bs cs _ _; rfl
  | cons a as ih =>
    intro bs cs hab hbc
    cases bs with
    | nil => simp [charListLe] at hab
    | cons b bs =>
      cases cs with
      | nil => simp [charListLe] at hbc
      | cons c cs =>
        simp only [charListLe] at hab hbc ⊢
        by_cases h1 : a < b
        · by_cases h2 : b < c
          · simp [lt_trans h1 h2]
          · by_cases h3 : b = c
            · subst h3; simp [h1]
            · simp [h2, h3] at hbc
        · by_cases h1e : a = b
          · subst h1e
            have hab2 : charListLe as bs = true := by simpa [lt_irrefl] using hab
            by_cases h2 : a < c
            · simp [h2]
            · by_cases h3 : a = c
              · subst h3
                have hbc2 : charListLe bs cs = true := by simpa [lt_irrefl] using hbc
                simp [lt_irrefl, ih bs cs hab2 hbc2]
              · simp [h2, h3] at hbc
          · simp [h1, h1e] at hab

theorem charListLe_antisymm :
    ∀ as bs, charListLe as bs = true → charListLe bs as = true → as = bs := by
  intro as
  induction as with
  | nil =>
    intro bs _ hba
    cases bs with
    | nil => rfl
    | cons b bs => simp [charListLe] at hba
  | cons a as ih =>
    intro bs hab hba
    cases bs with
    | nil => simp [charListLe] at hab
    | cons b bs =>
      simp only [charListLe] at hab hba
      by_cases h1 : a < b
      · simp [lt_asymm h1, (ne_of_lt h1).symm] at hba
      · by_cases h2 : a = b
        · subst h2
          have hab2 : charListLe as bs = true := by simpa [lt_irrefl] using hab
          have hba2 : charListLe bs as = true := by simpa [lt_irrefl] using hba
          rw [ih bs hab2 hba2]
        · simp [h1, h2] at hab

instance : IsTotal String (fun a b => strLe a b = true) :=
  ⟨fun a b => charListLe_total a.data b.data⟩

instance : IsTrans String (fun a b => strLe a b = true) :=
  ⟨fun a b c => charListLe_trans a.data b.data c.data⟩

instance : IsAntisymm String (fun a b => strLe a b = true) :=
  ⟨fun a b hab hba => String.ext (charListLe_antisymm a.data b.data hab hba)⟩

/-- Shallow embedding of PublisherMDnsSd MakeRegType: the sub type list is
sorted (std sort on std string, lexical order) and each sub type is appended
to the base type with a comma separator. -/
def MakeRegType (aType : String) (aSubTypeList : List String) : String :=
  let sorted := aSubTypeList.insertionSort (fun a b => strLe a b = true)
  sorted.foldl (fun regType subType => regType ++ "," ++ subType) aType

/-- Claim C8: MakeRegType returns the type followed by each sub type label
prefixed with a comma in lexically sorted order; the result is identical for
every permutation of the input sub type list, and in particular
MakeRegType "_test._udp" ["_b", "_a"] equals "_test._udp,_a,_b". -/
theorem makeRegType_perm_invariant_and_example :
    (∀ (aType : String) (l l' : List String), l.Perm l' →
      MakeRegType aType l = MakeRegType aType l') ∧
    MakeRegType "_test._udp" ["_b", "_a"] = "_test._udp,_a,_b" := by
  constructor
  · intro aType l l' hperm
    have hperm2 : (l.insertionSort (fun a b => strLe a b = true)).Perm
        (l'.insertionSort (fun a b => strLe a b = true)) :=
      (List.perm_insertionSort _ l).trans (hperm.trans (List.perm_insertionSort _ l').symm)
    have hsorted : l.insertionSort (fun a b => strLe a b = true) =
        l'.insertionSort (fun a b => strLe a b = true) :=
      List.eq_of_perm_of_sorted hperm2 (List.sorted_insertionSort _ l)
        (List.sorted_insertionSort _ l')
    simp only [MakeRegType, hsorted]
  · decide

/-- Witness for claim C8: the permutation hypothesis discharged at the
concrete lists of the specification example. -/
theorem makeRegType_perm_invariant_witness :
    MakeRegType "_test._udp" ["_b", "_a"] = MakeRegType "_test._udp" ["_a", "_b"] :=
  makeRegType_perm_invariant_and_example.1 "_test._udp" ["_b", "_a"] ["_a", "_b"] (by decide)

/-- Modelled from the spec: the Ip6Address value (byte array m8 of 16 bytes)
with the standard IPv6 classification predicates used by the address filters;
the Ip6Address class itself (common/types) is not among the provided sources.
The spec fixes the intended meaning through its examples: loopback ::1,
link local fe80::1, multicast ff02::1, global 2001:db8::1. -/
structure Ip6Address where
  m8 : List Nat
deriving DecidableEq, Repr

/-- Modelled from the spec: an IPv6 address is unspecified when every byte
is zero (the :: address). -/
def Ip6Address.IsUnspecified (a : Ip6Address) : Bool :=
  a.m8 = List.replicate 16 0

/-- Modelled from the spec: the IPv6 loopback address ::1. -/
def Ip6Address.IsLoopback (a : Ip6Address) : Bool :=
  a.m8 = List.replicate 15 0 ++ [1]

/-- Modelled from the spec: an IPv6 link local address starts with the ten
bit pattern fe80::/10. -/
def Ip6Address.IsLinkLocal (a : Ip6Address) : Bool :=
  a.m8.getD 0 0 = 0xfe && (a.m8.getD 1 0) &&& 0xc0 = 0x80

/-- Modelled from the spec: an IPv6 multicast address starts with byte ff. -/
def Ip6Address.IsMulticast (a : Ip6Address) : Bool :=
  a.m8.getD 0 0 = 0xff

/-- The loopback address ::1 of the spec example set. -/
def loopbackAddr : Ip6Address :=
  ⟨[0, 0, 0, 0, 0, 0, 0, 0, 0, 0, 0, 0, 0, 0, 0, 1]⟩

/-- The link local address fe80::1 of the spec example set. -/
def linkLocalAddr : Ip6Address :=
  ⟨[0xfe, 0x80, 0, 0, 0, 0, 0, 0, 0, 0, 0, 0, 0, 0, 0, 1]⟩

/-- The multicast address ff02::1 of the spec example set. -/
def multicastAddr : Ip6Address :=
  ⟨[0xff, 0x02, 0, 0, 0, 0, 0, 0, 0, 0, 0, 0, 0, 0, 0, 1]⟩

/-- The global address 2001:db8::1 of the spec example set. -/
def globalAddr : Ip6Address :=
  ⟨[0x20, 0x01, 0x0d, 0xb8, 0, 0, 0, 0, 0, 0, 0, 0, 0, 0, 0, 1]⟩

/-- Shallow embedding of DiscoveredInstanceInfo as filled in by the service
instance resolution pipeline. -/
structure DiscoveredInstanceInfo where
  mNetifIndex : Nat
  mName : String
  mHostName : String
  mPort : Nat
  mTxtData : List Nat
  mPriority : Nat
  mWeight : Nat
  mAddresses : List Ip6Address
  mTtl : Nat
deriving DecidableEq, Repr

/-- Shallow embedding of the state of one ServiceInstanceResolution object:
its identity fields, its current daemon operation handle, the instance info
accumulated so far, and the type string of the parent subscription. -/
structure ServiceInstanceResolution where
  mInstanceName : String
  mTypeEndWithDot : String
  mDomain : String
  mNetifIndex : Nat
  mServiceRef : Option Nat
  mInstanceInfo : DiscoveredInstanceInfo
  mSubscriptionType : String
deriving DecidableEq, Repr

/-- Observable notifications emitted by a service instance resolution:
the resolve failed event, the removal of the resolution from its parent
subscription (which frees the resolution object), and the resolved event. -/
inductive ResolutionEv where
  | onServiceResolveFailed (aType aInstanceName : String) (aErrorCode : Int)
  | removeInstanceResolution
  | onServiceResolved (aType : String) (aInstanceInfo : DiscoveredInstanceInfo)
deriving DecidableEq, Repr

/-- Shallow embedding of ServiceInstanceResolution FinishResolution: remove
this resolution from the parent subscription (freeing the object) and then
notify the Publisher with the resolved event. -/
def FinishResolution (res : ServiceInstanceResolution) : List ResolutionEv :=
  [ResolutionEv.removeInstanceResolution,
   ResolutionEv.onServiceResolved res.mSubscriptionType res.mInstanceInfo]

/-- Results of the synchronous daemon and helper calls made during
HandleResolveResult: the outcome of SplitFullServiceInstanceName and of
DNSServiceGetAddrInfo, plus the handle assigned on success. -/
structure ResolveEnv where
  splitResult : Option (String × String × String)
  getAddrInfoErr : Int
  newServiceRef : Nat
deriving DecidableEq, Repr

/-- Shallow embedding of ServiceInstanceResolution GetAddrInfo: start the
address query, storing the new daemon handle on success, and report the
generic mdns error on synchronous failure. -/
def GetAddrInfo (env : ResolveEnv) (res : ServiceInstanceResolution) :
    ServiceInstanceResolution × OtbrError :=
  if env.getAddrInfoErr = 0 then
    ({ res with mServiceRef := some env.newServiceRef }, OtbrError.errNone)
  else
    (res, OtbrError.errMdns)

/-- Shallow embedding of ServiceInstanceResolution HandleResolveResult.
Returns the surviving resolution state (none when the resolution removed
itself and was freed) together with the notifications it emitted, in order. -/
def HandleResolveResult (env : ResolveEnv) (res : ServiceInstanceResolution)
    (aErrorCode : Int) (aInterfaceIndex : Nat) (aHostTarget : String) (aPort : Nat)
    (aTxtRecord : List Nat) : Option ServiceInstanceResolution × List ResolutionEv :=
  let body : ServiceInstanceResolution × OtbrError :=
    if aErrorCode ≠ 0 then (res, OtbrError.errNone)
    else
      match env.splitResult with
      | Option.none => (res, OtbrError.errInvalidArgs)
      | some (instanceName, _ty, _domain) =>
        let res1 := { res with
          mInstanceInfo := { res.mInstanceInfo with
            mNetifIndex := aInterfaceIndex
            mName := instanceName
            mHostName := aHostTarget
            mPort := aPort
            mTxtData := aTxtRecord
            mPriority := 0
            mWeight := 0 }
          mServiceRef := Option.none }
        GetAddrInfo env res1
  if aErrorCode ≠ 0 ∨ body.snd ≠ OtbrError.errNone then
    (Option.none,
     ResolutionEv.onServiceResolveFailed res.mSubscriptionType res.mInstanceName aErrorCode ::
       FinishResolution body.fst)
  else
    (some body.fst, [])

/-- Shallow embedding of ServiceInstanceResolution HandleGetAddrInfoResult.
The add flag and address family checks of the reply are passed as booleans;
the retained address filter matches the source verify line. -/
def HandleGetAddrInfoResult (res : ServiceInstanceResolution) (aErrorCode : Int)
    (aFlagsAdd : Bool) (aFamilyIsInet6 : Bool) (aAddress : Ip6Address) (aTtl : Nat) :
    Option ServiceInstanceResolution × List ResolutionEv :=
  let res1 :=
    if aErrorCode ≠ 0 then res
    else if !(aFlagsAdd && aFamilyIsInet6) then res
    else if !(!aAddress.IsUnspecified && !aAddress.IsLinkLocal &&
              !aAddress.IsMulticast && !aAddress.IsLoopback) then res
    else
      { res with mInstanceInfo := { res.mInstanceInfo with
          mAddresses := res.mInstanceInfo.mAddresses ++ [aAddress]
          mTtl := aTtl } }
  if res1.mInstanceInfo.mAddresses ≠ [] ∨ aErrorCode ≠ 0 then
    (Option.none, FinishResolution res1)
  else
    (some res1, [])

/-- Shallow embedding of DiscoveredHostInfo as filled in by a host
subscription. -/
structure DiscoveredHostInfo where
  mHostName : String
  mAddresses : List Ip6Address
  mTtl : Nat
deriving DecidableEq, Repr

/-- Shallow embedding of the state of one HostSubscription object. -/
structure HostSubscription where
  mHostName : String
  mServiceRef : Option Nat
  mHostInfo : DiscoveredHostInfo
deriving DecidableEq, Repr

/-- Observable notifications emitted by a host subscription. -/
inductive HostEv where
  | onHostResolved (aName : String) (aInfo : DiscoveredHostInfo)
  | onHostResolveFailed (aName : String) (aErrorCode : Int)
deriving DecidableEq, Repr

/-- Shallow embedding of HostSubscription HandleResolveResult: only the link
local filter applies to host address replies; a successful retained address
notifies the resolved event, an error reply notifies the failed event. -/
def HostHandleResolveResult (sub : HostSubscription) (aErrorCode : Int)
    (aFlagsAdd : Bool) (aFamilyIsInet6 : Bool) (aHostName : String)
    (aAddress : Ip6Address) (aTtl : Nat) : HostSubscription × List HostEv :=
  if aErrorCode ≠ 0 then
    (sub, [HostEv.onHostResolveFailed aHostName aErrorCode])
  else if !(aFlagsAdd && aFamilyIsInet6) then
    (sub, [])
  else if aAddress.IsLinkLocal then
    (sub, [])
  else
    let info : DiscoveredHostInfo :=
      { mHostName := aHostName
        mAddresses := sub.mHostInfo.mAddresses ++ [aAddress]
        mTtl := aTtl }
    ({ sub with mHostInfo := info }, [HostEv.onHostResolved sub.mHostName info])

/-- An instance info with no accumulated data, as held by a freshly started
resolution. -/
def emptyInstanceInfo : DiscoveredInstanceInfo :=
  ⟨0, "", "", 0, [], 0, 0, [], 0⟩

/-- A freshly started service instance resolution used as concrete input. -/
def sampleResolution : ServiceInstanceResolution :=
  ⟨"inst", "_test._udp.", "local.", 1, some 5, emptyInstanceInfo, "_test._udp"⟩

/-- A freshly started host subscription used as concrete input. -/
def sampleHostSub : HostSubscription :=
  ⟨"myhost", some 6, ⟨"", [], 0⟩⟩

/-- A daemon environment for resolve replies used as concrete input. -/
def sampleResolveEnv : ResolveEnv :=
  ⟨some ("inst", "_test._udp", "local."), 0, 9⟩

def isResolvedEv : ResolutionEv → Bool
  | ResolutionEv.onServiceResolved _ _ => true
  | _ => false

def isResolveFailedEv : ResolutionEv → Bool
  | ResolutionEv.onServiceResolveFailed _ _ _ => true
  | _ => false

def isRemoveEv : ResolutionEv → Bool
  | ResolutionEv.removeInstanceResolution => true
  | _ => false

/-- Counterexample for claim C2: when the resolve step reports a daemon
error (here kDNSServiceErr_ServiceNotRunning), HandleResolveResult notifies
the Publisher with the resolve failed event and then calls FinishResolution,
which additionally notifies the resolved event — one invocation emits BOTH
terminal events, contradicting "either resolved or resolve failed, never
both". -/
theorem handleResolveResult_error_fires_both_events :
    ((HandleResolveResult sampleResolveEnv sampleResolution kDNSServiceErr_ServiceNotRunning
        1 "host" 12345 []).snd.countP (fun e => isResolveFailedEv e) = 1) ∧
    ((HandleResolveResult sampleResolveEnv sampleResolution kDNSServiceErr_ServiceNotRunning
        1 "host" 12345 []).snd.countP (fun e => isResolvedEv e) = 1) := by
  decide

/-- Claim C2 (amended): a resolution invocation either keeps the resolution
alive and emits no notification, or removes the resolution from its parent
exactly once and then fires the resolved event exactly once as the final
notification; when the resolve step failed, the resolve failed event fires
additionally, immediately before the removal — so a failed resolve emits
both a resolve failed and a resolved notification rather than exactly one
terminal event. -/
theorem resolution_terminates_with_single_removal :
    (∀ (env : ResolveEnv) (res : ServiceInstanceResolution) (ec : Int) (netif : Nat)
        (host : String) (port : Nat) (txt : List Nat),
      (∃ r, (HandleResolveResult env res ec netif host port txt).fst = some r ∧
            (HandleResolveResult env res ec netif host port txt).snd = []) ∨
      ((HandleResolveResult env res ec netif host port txt).fst = Option.none ∧
       ∃ info, (HandleResolveResult env res ec netif host port txt).snd =
         [ResolutionEv.onServiceResolveFailed res.mSubscriptionType res.mInstanceName ec,
          ResolutionEv.removeInstanceResolution,
          ResolutionEv.onServiceResolved res.mSubscriptionType info])) ∧
    (∀ (res : ServiceInstanceResolution) (ec : Int) (fAdd fInet6 : Bool)
        (addr : Ip6Address) (ttl : Nat),
      (∃ r, (HandleGetAddrInfoResult res ec fAdd fInet6 addr ttl).fst = some r ∧
            (HandleGetAddrInfoResult res ec fAdd fInet6 addr ttl).snd = []) ∨
      ((HandleGetAddrInfoResult res ec fAdd fInet6 addr ttl).fst = Option.none ∧
       ∃ info, (HandleGetAddrInfoResult res ec fAdd fInet6 addr ttl).snd =
         [ResolutionEv.removeInstanceResolution,
          ResolutionEv.onServiceResolved res.mSubscriptionType info])) := by
  constructor
  · intro env res ec netif host port txt
    by_cases hec : ec = 0
    · subst hec
      simp only [HandleResolveResult, ne_eq, not_true_eq_false, if_false, ite_false,
        not_false_eq_true, reduceIte]
      cases hsplit : env.splitResult with
      | none =>
        right
        simp [FinishResolution]
      | some v =>
        obtain ⟨instanceName, ty, domain⟩ := v
        by_cases hg : env.getAddrInfoErr = 0
        · left
          simp [GetAddrInfo, hg]
        · right
          simp [GetAddrInfo, hg, FinishResolution]
    · right
      simp only [HandleResolveResult, ne_eq, hec, not_false_eq_true, if_true, true_or,
        reduceIte]
      simp [FinishResolution]
  · intro res ec fAdd fInet6 addr ttl
    by_cases hec : ec = 0
    · subst hec
      simp only [HandleGetAddrInfoResult, ne_eq, not_true_eq_false, if_false, or_false,
        reduceIte]
      by_cases hflags : (!(fAdd && fInet6)) = true
      · by_cases haddrs : res.mInstanceInfo.mAddresses = []
        · left; simp [hflags, haddrs]
        · right; simp [hflags, haddrs, FinishResolution]
      · by_cases hfilter : (!(!addr.IsUnspecified && !addr.IsLinkLocal &&
            !addr.IsMulticast && !addr.IsLoopback)) = true
        · by_cases haddrs : res.mInstanceInfo.mAddresses = []
          · left; simp [hflags, hfilter, haddrs]
          · right; simp [hflags, hfilter, haddrs, FinishResolution]
        · right
          simp [hflags, hfilter, FinishResolution]
    · right
      simp [HandleGetAddrInfoResult, hec, FinishResolution]

/-- Claim C7: service instance resolution retains a resolved IPv6 address
iff it is none of unspecified, link local, multicast or loopback, while host
resolution retains an address iff it is not link local; evaluated on the
spec example set, service resolution retains only 2001:db8::1 and host
resolution rejects fe80::1 but accepts ff02::1. -/
theorem address_filters_service_and_host :
    (∀ (res : ServiceInstanceResolution) (addr : Ip6Address) (ttl : Nat),
      res.mInstanceInfo.mAddresses = [] →
      ((∃ info, (HandleGetAddrInfoResult res 0 true true addr ttl).snd =
          [ResolutionEv.removeInstanceResolution,
           ResolutionEv.onServiceResolved res.mSubscriptionType info] ∧
          info.mAddresses = [addr]) ↔
        (!addr.IsUnspecified && !addr.IsLinkLocal && !addr.IsMulticast &&
          !addr.IsLoopback) = true)) ∧
    (∀ (sub : HostSubscription) (name : String) (addr : Ip6Address) (ttl : Nat),
      ((∃ info, (HostHandleResolveResult sub 0 true true name addr ttl).snd =
          [HostEv.onHostResolved sub.mHostName info] ∧
          info.mAddresses = sub.mHostInfo.mAddresses ++ [addr]) ↔
        addr.IsLinkLocal = false)) ∧
    ((HandleGetAddrInfoResult sampleResolution 0 true true loopbackAddr 120).snd = [] ∧
     (HandleGetAddrInfoResult sampleResolution 0 true true linkLocalAddr 120).snd = [] ∧
     (HandleGetAddrInfoResult sampleResolution 0 true true multicastAddr 120).snd = [] ∧
     (HandleGetAddrInfoResult sampleResolution 0 true true globalAddr 120).snd =
       [ResolutionEv.removeInstanceResolution,
        ResolutionEv.onServiceResolved "_test._udp"
          { emptyInstanceInfo with mAddresses := [globalAddr], mTtl := 120 }]) ∧
    ((HostHandleResolveResult sampleHostSub 0 true true "myhost.local." linkLocalAddr 120).snd =
       [] ∧
     (HostHandleResolveResult sampleHostSub 0 true true "myhost.local." multicastAddr 120).snd =
       [HostEv.onHostResolved "myhost" ⟨"myhost.local.", [multicastAddr], 120⟩] ∧
     (HostHandleResolveResult sampleHostSub 0 true true "myhost.local." loopbackAddr 120).snd =
       [HostEv.onHostResolved "myhost" ⟨"myhost.local.", [loopbackAddr], 120⟩]) := by
  refine ⟨?_, ?_, by decide, by decide⟩
  · intro res addr ttl haddrs
    by_cases hfilter : (!addr.IsUnspecified && !addr.IsLinkLocal &&
        !addr.IsMulticast && !addr.IsLoopback) = true
    · simp only [hfilter, iff_true]
      refine ⟨{ res.mInstanceInfo with mAddresses := [addr], mTtl := ttl }, ?_, by simp [haddrs]⟩
      simp [HandleGetAddrInfoResult, hfilter, haddrs, FinishResolution]
    · have hfilterF : (!addr.IsUnspecified && !addr.IsLinkLocal &&
          !addr.IsMulticast && !addr.IsLoopback) = false := by
        cases h : (!addr.IsUnspecified && !addr.IsLinkLocal &&
            !addr.IsMulticast && !addr.IsLoopback)
        · rfl
        · exact absurd h hfilter
      simp only [hfilterF, Bool.false_eq_true, iff_false]
      intro hcontra
      obtain ⟨info, hevs, _⟩ := hcontra
      simp [HandleGetAddrInfoResult, hfilterF, haddrs] at hevs
  · intro sub name addr ttl
    by_cases hll : addr.IsLinkLocal = true
    · simp only [hll, Bool.true_eq_false, iff_false]
      intro hcontra
      obtain ⟨info, hevs, _⟩ := hcontra
      simp [HostHandleResolveResult, hll] at hevs
    · have hll2 : addr.IsLinkLocal = false := by
        cases h : addr.IsLinkLocal
        · rfl
        · exact absurd h hll
      simp only [hll2, iff_true]
      exact ⟨{ mHostName := name, mAddresses := sub.mHostInfo.mAddresses ++ [addr],
               mTtl := ttl }, by simp [HostHandleResolveResult, hll2], rfl⟩

/-- Witness for claim C7: both general filter directions discharged at
concrete inputs. -/
theorem address_filters_witness :
    (∃ info,
      (HandleGetAddrInfoResult sampleResolution 0 true true globalAddr 120).snd =
        [ResolutionEv.removeInstanceResolution,
         ResolutionEv.onServiceResolved sampleResolution.mSubscriptionType info] ∧
      info.mAddresses = [globalAddr]) ∧
    (∃ info,
      (HostHandleResolveResult sampleHostSub 0 true true "myhost.local." multicastAddr
        120).snd = [HostEv.onHostResolved sampleHostSub.mHostName info] ∧
      info.mAddresses = sampleHostSub.mHostInfo.mAddresses ++ [multicastAddr]) :=
  ⟨(address_filters_service_and_host.1 sampleResolution globalAddr 120 rfl).mpr (by decide),
   (address_filters_service_and_host.2.1 sampleHostSub "myhost.local." multicastAddr
      120).mpr (by decide)⟩

/-- The Publisher lifecycle state enum. -/
inductive PubState where
  | kIdle
  | kReady
deriving DecidableEq, Repr

/-- The fixed mDNS domain suffix. -/
def kDomain : String := "local."

/-- Modelled from the spec: base class MakeFullHostName — a fully qualified
host name is built by appending the fixed domain suffix to the leaf label
(mdns.cpp is not among the provided sources). -/
def MakeFullHostName (aName : String) : String :=
  aName ++ "." ++ kDomain

/-- Modelled from the spec: base class MakeFullKeyName, analogous to
MakeFullHostName. -/
def MakeFullKeyName (aName : String) : String :=
  aName ++ "." ++ kDomain

/-- Shallow embedding of one DnssdServiceRegistration entry: the published
parameters, the single shot result callback (identified by a number), the
daemon handle owned by this registration, and the completion flag. -/
structure ServiceRegistration where
  mHostName : String
  mName : String
  mType : String
  mSubTypeList : List String
  mPort : Nat
  mTxtData : List Nat
  mCallback : Nat
  mServiceRef : Option Nat
  mCompleted : Bool
deriving DecidableEq, Repr

/-- Shallow embedding of one DnssdHostRegistration entry, with the record
reference map from daemon record handles to the address each represents. -/
structure HostRegistration where
  mName : String
  mAddresses : List Ip6Address
  mCallback : Nat
  mServiceRef : Option Nat
  mRecordRefMap : List (Nat × Ip6Address)
  mCallbackCount : Nat
  mCompleted : Bool
deriving DecidableEq, Repr

/-- Shallow embedding of one DnssdKeyRegistration entry. -/
structure KeyRegistration where
  mName : String
  mKeyData : List Nat
  mCallback : Nat
  mServiceRef : Option Nat
  mRecordRef : Nat
  mCompleted : Bool
deriving DecidableEq, Repr

/-- Observable events of a publisher operation: result callback invocations,
state callback invocations, daemon calls, and map stores. -/
inductive Ev where
  | resultCb (cb : Nat) (err : OtbrError)
  | stateCb (st : PubState)
  | dnsCreateConnection (ref : Nat)
  | dnsServiceRegister (ref : Nat) (name regType : String) (port : Nat)
  | dnsRegisterRecord (conn rec : Nat) (fullName : String)
  | dnsAddRecord (ref rec : Nat) (fullName : String)
  | dnsRefDeallocate (ref : Nat)
  | dnsUpdateRecord (ref rec : Nat) (ttl : Nat)
  | dnsRemoveRecord (ref rec : Nat)
  | storedService (key : String × String)
  | storedHost (name : String)
  | storedKey (name : String)
deriving DecidableEq, Repr

/-- Shallow embedding of the PublisherMDnsSd state: lifecycle state, the
three registration maps (association lists on their logical keys), the two
subscription lists, the shared hosts and keys connection handle, and a
counter from which the daemon model hands out fresh handles. -/
structure Publisher where
  mState : PubState
  mServiceRegistrations : List ((String × String) × ServiceRegistration)
  mHostRegistrations : List (String × HostRegistration)
  mKeyRegistrations : List (String × KeyRegistration)
  mSubscribedServices : List (String × String)
  mSubscribedHosts : List String
  mHostsAndKeysRef : Option Nat
  nextRef : Nat
deriving DecidableEq, Repr

/-- Shallow embedding of the DnssdServiceRegistration destructor: deallocate
the registration daemon handle when present (the handle is the subordinate
reference returned by the shared connection register call, never the shared
connection itself). -/
def DnssdServiceRegistrationDtor (reg : ServiceRegistration) : List Ev :=
  match reg.mServiceRef with
  | Option.none => []
  | some ref => [Ev.dnsRefDeallocate ref]

/-- Shallow embedding of the DnssdHostRegistration destructor: when the
registration owns a daemon handle, walk the record reference map and, per
record, send the goodbye update (time to live 1) if the registration had
completed, then remove the record; the daemon results of both calls are only
logged. The updErr argument models those daemon results per record. -/
def DnssdHostRegistrationDtor (_updErr : Nat → Int) (reg : HostRegistration) : List Ev :=
  match reg.mServiceRef with
  | Option.none => []
  | some ref =>
    (reg.mRecordRefMap.map (fun p =>
      (if reg.mCompleted then [Ev.dnsUpdateRecord ref p.fst 1] else []) ++
        [Ev.dnsRemoveRecord ref p.fst])).flatten

/-- Shallow embedding of the DnssdKeyRegistration destructor: goodbye update
when completed, then record removal; results only logged. -/
def DnssdKeyRegistrationDtor (reg : KeyRegistration) : List Ev :=
  match reg.mServiceRef with
  | Option.none => []
  | some ref =>
    (if reg.mCompleted then [Ev.dnsUpdateRecord ref reg.mRecordRef 1] else []) ++
      [Ev.dnsRemoveRecord ref reg.mRecordRef]

/-- Shallow embedding of PublisherMDnsSd Start: unconditionally set the
state to ready, notify the state callback, return success. -/
def Start (pub : Publisher) : Publisher × List Ev × OtbrError :=
  ({ pub with mState := PubState.kReady }, [Ev.stateCb PubState.kReady], OtbrError.errNone)

/-- Shallow embedding of PublisherMDnsSd Stop: a no op unless ready; else
swap the three registration maps out (their entries are torn down per the
destructor contracts when the locals die), deallocate the shared hosts and
keys handle when allocated, clear both subscription lists and become idle.
The updErr argument models the daemon results of the goodbye updates issued
during teardown. -/
def Stop (updErr : Nat → Int) (pub : Publisher) : Publisher × List Ev :=
  if pub.mState = PubState.kReady then
    ({ pub with
        mState := PubState.kIdle
        mServiceRegistrations := []
        mHostRegistrations := []
        mKeyRegistrations := []
        mSubscribedServices := []
        mSubscribedHosts := []
        mHostsAndKeysRef := Option.none },
     (match pub.mHostsAndKeysRef with
      | Option.none => []
      | some ref => [Ev.dnsRefDeallocate ref]) ++
       (pub.mKeyRegistrations.map (fun p => DnssdKeyRegistrationDtor p.snd)).flatten ++
       (pub.mHostRegistrations.map (fun p => DnssdHostRegistrationDtor updErr p.snd)).flatten ++
       (pub.mServiceRegistrations.map (fun p => DnssdServiceRegistrationDtor p.snd)).flatten)
  else
    (pub, [])

/-- Shallow embedding of AllocateHostsAndKeysRefIfUnallocated: lazily create
the shared connection; createConnErr models the daemon result of
DNSServiceCreateConnection. -/
def AllocateHostsAndKeysRefIfUnallocated (createConnErr : Int) (pub : Publisher) :
    Publisher × List Ev × Int :=
  match pub.mHostsAndKeysRef with
  | some _ => (pub, [], 0)
  | Option.none =>
    if createConnErr = 0 then
      ({ pub with mHostsAndKeysRef := some pub.nextRef, nextRef := pub.nextRef + 1 },
       [Ev.dnsCreateConnection pub.nextRef], 0)
    else
      (pub, [], createConnErr)

def findServiceRegistration (m : List ((String × String) × ServiceRegistration))
    (key : String × String) : Option ServiceRegistration :=
  (m.find? (fun p => p.fst = key)).map Prod.snd

def eraseServiceRegistration (m : List ((String × String) × ServiceRegistration))
    (key : String × String) : List ((String × String) × ServiceRegistration) :=
  m.filter (fun p => p.fst ≠ key)

def findHostRegistration (m : List (String × HostRegistration)) (name : String) :
    Option HostRegistration :=
  (m.find? (fun p => p.fst = name)).map Prod.snd

def eraseHostRegistration (m : List (String × HostRegistration)) (name : String) :
    List (String × HostRegistration) :=
  m.filter (fun p => p.fst ≠ name)

def findKeyRegistration (m : List (String × KeyRegistration)) (name : String) :
    Option KeyRegistration :=
  (m.find? (fun p => p.fst = name)).map Prod.snd

def eraseKeyRegistration (m : List (String × KeyRegistration)) (name : String) :
    List (String × KeyRegistration) :=
  m.filter (fun p => p.fst ≠ name)

/-- Modelled from the spec: base class RemoveServiceRegistration (mdns.cpp is
not among the provided sources) — look up the (name, type) entry; when
present, complete its callback with the given error, erase it from the map
and run the registration teardown; absent entries leave the map untouched. -/
def RemoveServiceRegistration (m : List ((String × String) × ServiceRegistration))
    (aName aType : String) (err : OtbrError) :
    List ((String × String) × ServiceRegistration) × List Ev :=
  match findServiceRegistration m (aName, aType) with
  | Option.none => (m, [])
  | some old =>
    (eraseServiceRegistration m (aName, aType),
     Ev.resultCb old.mCallback err :: DnssdServiceRegistrationDtor old)

/-- Modelled from the spec: base class RemoveHostRegistration, analogous to
RemoveServiceRegistration; teardown here takes the goodbye update results. -/
def RemoveHostRegistration (updErr : Nat → Int) (m : List (String × HostRegistration))
    (aName : String) (err : OtbrError) : List (String × HostRegistration) × List Ev :=
  match findHostRegistration m aName with
  | Option.none => (m, [])
  | some old =>
    (eraseHostRegistration m aName,
     Ev.resultCb old.mCallback err :: DnssdHostRegistrationDtor updErr old)

/-- Modelled from the spec: base class RemoveKeyRegistration, analogous to
RemoveServiceRegistration. -/
def RemoveKeyRegistration (m : List (String × KeyRegistration)) (aName : String)
    (err : OtbrError) : List (String × KeyRegistration) × List Ev :=
  match findKeyRegistration m aName with
  | Option.none => (m, [])
  | some old =>
    (eraseKeyRegistration m aName,
     Ev.resultCb old.mCallback err :: DnssdKeyRegistrationDtor old)

/-- Modelled from the spec: base class HandleDuplicateServiceRegistration —
when an identical in flight or completed registration exists for the same
(name, type) key it is merged (a completed identical one answers the new
callback with success, an in flight identical one absorbs it), returning no
callback so the caller stops; an existing registration with different
parameters is superseded: it is removed with its callback signalled as
aborted before the new call proceeds with its own callback. -/
def HandleDuplicateServiceRegistration (m : List ((String × String) × ServiceRegistration))
    (aHostName aName aType : String) (aSortedSubTypeList : List String) (aPort : Nat)
    (aTxtData : List Nat) (aCallback : Nat) :
    List ((String × String) × ServiceRegistration) × List Ev × Option Nat :=
  match findServiceRegistration m (aName, aType) with
  | Option.none => (m, [], some aCallback)
  | some old =>
    if old.mHostName = aHostName ∧ old.mSubTypeList = aSortedSubTypeList ∧
        old.mPort = aPort ∧ old.mTxtData = aTxtData then
      if old.mCompleted then
        (m, [Ev.resultCb aCallback OtbrError.errNone], Option.none)
      else
        (m, [], Option.none)
    else
      match RemoveServiceRegistration m aName aType OtbrError.errAborted with
      | (m2, evs) => (m2, evs, some aCallback)

/-- Modelled from the spec: base class HandleDuplicateHostRegistration,
analogous to the service variant with the host name as key and the address
list as the identity of the registration. -/
def HandleDuplicateHostRegistration (m : List (String × HostRegistration))
    (updErr : Nat → Int) (aName : String) (aAddresses : List Ip6Address)
    (aCallback : Nat) : List (String × HostRegistration) × List Ev × Option Nat :=
  match findHostRegistration m aName with
  | Option.none => (m, [], some aCallback)
  | some old =>
    if old.mAddresses = aAddresses then
      if old.mCompleted then
        (m, [Ev.resultCb aCallback OtbrError.errNone], Option.none)
      else
        (m, [], Option.none)
    else
      match RemoveHostRegistration updErr m aName OtbrError.errAborted with
      | (m2, evs) => (m2, evs, some aCallback)

/-- Modelled from the spec: base class HandleDuplicateKeyRegistration,
analogous to the host variant with the key data as registration identity. -/
def HandleDuplicateKeyRegistration (m : List (String × KeyRegistration)) (aName : String)
    (aKeyData : List Nat) (aCallback : Nat) :
    List (String × KeyRegistration) × List Ev × Option Nat :=
  match findKeyRegistration m aName with
  | Option.none => (m, [], some aCallback)
  | some old =>
    if old.mKeyData = aKeyData then
      if old.mCompleted then
        (m, [Ev.resultCb aCallback OtbrError.errNone], Option.none)
      else
        (m, [], Option.none)
    else
      match RemoveKeyRegistration m aName OtbrError.errAborted with
      | (m2, evs) => (m2, evs, some aCallback)

/-- Shallow embedding of PublisherMDnsSd PublishServiceImpl. The arguments
createConnErr and registerErr model the synchronous daemon results of
DNSServiceCreateConnection and DNSServiceRegister. On register success the
daemon replaces the local service ref with a fresh subordinate handle of the
shared connection (share connection flag), which the stored registration
then owns; on register failure the local service ref still holds the shared
connection handle and the common error exit deallocates it. -/
def PublishServiceImpl (createConnErr registerErr : Int) (pub : Publisher)
    (aHostName aName aType : String) (aSubTypeList : List String) (aPort : Nat)
    (aTxtData : List Nat) (aCallback : Nat) : Publisher × List Ev × OtbrError :=
  let sortedSubTypeList := aSubTypeList.insertionSort (fun a b => strLe a b = true)
  let regType := MakeRegType aType sortedSubTypeList
  if pub.mState = PubState.kReady then
    match HandleDuplicateServiceRegistration pub.mServiceRegistrations aHostName aName aType
        sortedSubTypeList aPort aTxtData aCallback with
    | (m1, evs1, Option.none) =>
      ({ pub with mServiceRegistrations := m1 }, evs1, OtbrError.errNone)
    | (m1, evs1, some cb) =>
      let pub1 := { pub with mServiceRegistrations := m1 }
      match AllocateHostsAndKeysRefIfUnallocated createConnErr pub1 with
      | (pub2, evs2, allocErr) =>
        if allocErr = 0 then
          let conn := pub2.mHostsAndKeysRef.getD 0
          if registerErr = 0 then
            let newRef := pub2.nextRef
            let reg : ServiceRegistration :=
              ⟨aHostName, aName, aType, sortedSubTypeList, aPort, aTxtData, cb,
               some newRef, false⟩
            ({ pub2 with
                nextRef := pub2.nextRef + 1
                mServiceRegistrations :=
                  ((aName, aType), reg) ::
                    eraseServiceRegistration pub2.mServiceRegistrations (aName, aType) },
             evs1 ++ evs2 ++
               [Ev.dnsServiceRegister newRef aName regType aPort,
                Ev.storedService (aName, aType)],
             OtbrError.errNone)
          else
            (pub2,
             evs1 ++ evs2 ++
               [Ev.dnsRefDeallocate conn,
                Ev.resultCb cb (DNSErrorToOtbrError registerErr)],
             DNSErrorToOtbrError registerErr)
        else
          (pub2, evs1 ++ evs2 ++ [Ev.resultCb cb (DNSErrorToOtbrError allocErr)],
           DNSErrorToOtbrError allocErr)
  else
    (pub, [Ev.resultCb aCallback OtbrError.errInvalidState], OtbrError.errInvalidState)

/-- Shallow embedding of PublisherMDnsSd UnpublishService: invalid state
unless ready, else remove the (name, type) entry signalling aborted, then
answer the unpublish callback with success. -/
def UnpublishService (pub : Publisher) (aName aType : String) (aCallback : Nat) :
    Publisher × List Ev :=
  if pub.mState = PubState.kReady then
    match RemoveServiceRegistration pub.mServiceRegistrations aName aType
        OtbrError.errAborted with
    | (m2, evs) =>
      ({ pub with mServiceRegistrations := m2 },
       evs ++ [Ev.resultCb aCallback OtbrError.errNone])
  else
    (pub, [Ev.resultCb aCallback OtbrError.errInvalidState])

/-- The DNSServiceRegisterRecord loop of PublishHostImpl: one register
record call per address, handing out consecutive fresh record handles;
recErrs models the per call daemon results, and the loop stops at the first
failure (SuccessOrExit). Returns the record reference map built so far, the
emitted calls, the first error (zero when none) and the next fresh handle. -/
def RegisterHostRecords (conn : Nat) (fullName : String) :
    Nat → List Ip6Address → List Int →
      List (Nat × Ip6Address) × List Ev × Int × Nat
  | firstRec, [], _ => ([], [], 0, firstRec)
  | firstRec, addr :: rest, errs =>
    let e := errs.headD 0
    if e = 0 then
      match RegisterHostRecords conn fullName (firstRec + 1) rest errs.tail with
      | (recMap, evs, err, nxt) =>
        ((firstRec, addr) :: recMap,
         Ev.dnsRegisterRecord conn firstRec fullName :: evs, err, nxt)
    else
      ([], [], e, firstRec)

/-- Shallow embedding of PublisherMDnsSd PublishHostImpl. An empty address
list answers the callback with success before any daemon work and stores
nothing; recErrs models the per record daemon results of the register
record loop. -/
def PublishHostImpl (createConnErr : Int) (recErrs : List Int) (updErr : Nat → Int)
    (pub : Publisher) (aName : String) (aAddresses : List Ip6Address) (aCallback : Nat) :
    Publisher × List Ev × OtbrError :=
  if pub.mState = PubState.kReady then
    match HandleDuplicateHostRegistration pub.mHostRegistrations updErr aName aAddresses
        aCallback with
    | (m1, evs1, Option.none) =>
      ({ pub with mHostRegistrations := m1 }, evs1, OtbrError.errNone)
    | (m1, evs1, some cb) =>
      if aAddresses = [] then
        ({ pub with mHostRegistrations := m1 },
         evs1 ++ [Ev.resultCb cb OtbrError.errNone], OtbrError.errNone)
      else
        let pub1 := { pub with mHostRegistrations := m1 }
        match AllocateHostsAndKeysRefIfUnallocated createConnErr pub1 with
        | (pub2, evs2, allocErr) =>
          if allocErr = 0 then
            let conn := pub2.mHostsAndKeysRef.getD 0
            match RegisterHostRecords conn (MakeFullHostName aName) pub2.nextRef
                aAddresses recErrs with
            | (recMap, evs3, loopErr, nxt) =>
              if loopErr = 0 then
                let reg : HostRegistration :=
                  ⟨aName, aAddresses, cb, some conn, recMap, aAddresses.length, false⟩
                ({ pub2 with
                    nextRef := nxt
                    mHostRegistrations :=
                      (aName, reg) :: eraseHostRegistration pub2.mHostRegistrations aName },
                 evs1 ++ evs2 ++ evs3 ++ [Ev.storedHost aName], OtbrError.errNone)
              else
                ({ pub2 with nextRef := nxt },
                 evs1 ++ evs2 ++ evs3 ++
                   [Ev.resultCb cb (DNSErrorToOtbrError loopErr)],
                 DNSErrorToOtbrError loopErr)
          else
            (pub2, evs1 ++ evs2 ++ [Ev.resultCb cb (DNSErrorToOtbrError allocErr)],
             DNSErrorToOtbrError allocErr)
  else
    (pub, [Ev.resultCb aCallback OtbrError.errInvalidState], OtbrError.errInvalidState)

/-- Shallow embedding of PublisherMDnsSd UnpublishHost. -/
def UnpublishHost (updErr : Nat → Int) (pub : Publisher) (aName : String)
    (aCallback : Nat) : Publisher × List Ev :=
  if pub.mState = PubState.kReady then
    match RemoveHostRegistration updErr pub.mHostRegistrations aName
        OtbrError.errAborted with
    | (m2, evs) =>
      ({ pub with mHostRegistrations := m2 },
       evs ++ [Ev.resultCb aCallback OtbrError.errNone])
  else
    (pub, [Ev.resultCb aCallback OtbrError.errInvalidState])

/-- The full instance name of a stored service registration (used by the key
publication path to find a service registration matching the key name). -/
def fullServiceInstanceName (reg : ServiceRegistration) : String :=
  reg.mName ++ "." ++ reg.mType ++ "." ++ kDomain

/-- Modelled from the spec: the base class FindServiceRegistration overload
taking one fully qualified instance name (mdns.cpp is not among the provided
sources). -/
def findServiceRegistrationByFullName
    (m : List ((String × String) × ServiceRegistration)) (fullName : String) :
    Option ServiceRegistration :=
  (m.find? (fun p => fullServiceInstanceName p.snd = fullName)).map Prod.snd

/-- Shallow embedding of PublisherMDnsSd PublishKeyImpl: the key record is
attached to a matching service registration (add record) when one exists,
else registered on the shared connection (register record); in both cases
the stored key registration holds the shared hosts and keys handle. The
addOrRegErr argument models the daemon result of whichever record call was
made. -/
def PublishKeyImpl (createConnErr addOrRegErr : Int) (pub : Publisher) (aName : String)
    (aKeyData : List Nat) (aCallback : Nat) : Publisher × List Ev × OtbrError :=
  if pub.mState = PubState.kReady then
    let fullName := MakeFullKeyName aName
    match HandleDuplicateKeyRegistration pub.mKeyRegistrations aName aKeyData aCallback with
    | (m1, evs1, Option.none) =>
      ({ pub with mKeyRegistrations := m1 }, evs1, OtbrError.errNone)
    | (m1, evs1, some cb) =>
      let pub1 := { pub with mKeyRegistrations := m1 }
      match AllocateHostsAndKeysRefIfUnallocated createConnErr pub1 with
      | (pub2, evs2, allocErr) =>
        if allocErr = 0 then
          let conn := pub2.mHostsAndKeysRef.getD 0
          let recRef := pub2.nextRef
          let recEv :=
            match findServiceRegistrationByFullName pub2.mServiceRegistrations fullName with
            | some sreg => Ev.dnsAddRecord (sreg.mServiceRef.getD 0) recRef fullName
            | Option.none => Ev.dnsRegisterRecord conn recRef fullName
          if addOrRegErr = 0 then
            let reg : KeyRegistration := ⟨aName, aKeyData, cb, some conn, recRef, false⟩
            ({ pub2 with
                nextRef := pub2.nextRef + 1
                mKeyRegistrations :=
                  (aName, reg) :: eraseKeyRegistration pub2.mKeyRegistrations aName },
             evs1 ++ evs2 ++ [recEv, Ev.storedKey aName], OtbrError.errNone)
          else
            (pub2,
             evs1 ++ evs2 ++ [Ev.resultCb cb (DNSErrorToOtbrError addOrRegErr)],
             DNSErrorToOtbrError addOrRegErr)
        else
          (pub2, evs1 ++ evs2 ++ [Ev.resultCb cb (DNSErrorToOtbrError allocErr)],
           DNSErrorToOtbrError allocErr)
  else
    (pub, [Ev.resultCb aCallback OtbrError.errInvalidState], OtbrError.errInvalidState)

/-- Shallow embedding of PublisherMDnsSd UnpublishKey. -/
def UnpublishKey (pub : Publisher) (aName : String) (aCallback : Nat) :
    Publisher × List Ev :=
  if pub.mState = PubState.kReady then
    match RemoveKeyRegistration pub.mKeyRegistrations aName OtbrError.errAborted with
    | (m2, evs) =>
      ({ pub with mKeyRegistrations := m2 },
       evs ++ [Ev.resultCb aCallback OtbrError.errNone])
  else
    (pub, [Ev.resultCb aCallback OtbrError.errInvalidState])

/-- A publisher in the idle state with empty maps, used as concrete input. -/
def idlePub : Publisher :=
  ⟨PubState.kIdle, [], [], [], [], [], Option.none, 0⟩

/-- A publisher in the ready state with empty maps, used as concrete input. -/
def readyPub : Publisher :=
  ⟨PubState.kReady, [], [], [], [], [], Option.none, 0⟩

/-- A publisher in the ready state holding the shared connection handle and
one completed service registration, used as concrete input. -/
def busyPub : Publisher :=
  ⟨PubState.kReady,
   [(("svc", "_test._udp"), ⟨"h", "svc", "_test._udp", [], 80, [], 3, some 8, true⟩)],
   [], [], [("_x._udp", "")], ["hn"], some 2, 9⟩

/-- Claim C4: calling Stop twice in a row is equivalent to calling it once —
a Stop in the ready state empties all three registration maps and both
subscription lists, deallocates the shared hosts and keys connection handle
(when it was allocated) and transitions to idle, while a Stop issued when
already idle changes nothing and emits nothing. -/
theorem stop_idempotent :
    ∀ (updErr : Nat → Int) (pub : Publisher),
      Stop updErr (Stop updErr pub).fst = ((Stop updErr pub).fst, []) ∧
      (pub.mState = PubState.kIdle → Stop updErr pub = (pub, [])) ∧
      (pub.mState = PubState.kReady →
        (Stop updErr pub).fst.mServiceRegistrations = [] ∧
        (Stop updErr pub).fst.mHostRegistrations = [] ∧
        (Stop updErr pub).fst.mKeyRegistrations = [] ∧
        (Stop updErr pub).fst.mSubscribedServices = [] ∧
        (Stop updErr pub).fst.mSubscribedHosts = [] ∧
        (Stop updErr pub).fst.mHostsAndKeysRef = Option.none ∧
        (Stop updErr pub).fst.mState = PubState.kIdle ∧
        (∀ r, pub.mHostsAndKeysRef = some r →
          Ev.dnsRefDeallocate r ∈ (Stop updErr pub).snd)) := by
  intro updErr pub
  by_cases h : pub.mState = PubState.kReady
  · refine ⟨?_, ?_, ?_⟩
    · simp [Stop, h]
    · intro hidle; rw [h] at hidle; exact absurd hidle (by decide)
    · intro _
      refine ⟨by simp [Stop, h], by simp [Stop, h], by simp [Stop, h], by simp [Stop, h],
        by simp [Stop, h], by simp [Stop, h], by simp [Stop, h], ?_⟩
      intro r hr
      simp [Stop, h, hr]
  · refine ⟨?_, ?_, ?_⟩
    · simp [Stop, h]
    · intro _; simp [Stop, h]
    · intro hready; exact absurd hready h

/-- Witness for claim C4: the Stop behavior evaluated on a ready publisher
holding registrations, subscriptions and the shared handle, and on an idle
publisher. -/
theorem stop_idempotent_witness :
    Stop (fun _ => 0) (Stop (fun _ => 0) busyPub).fst = ((Stop (fun _ => 0) busyPub).fst, []) ∧
    Stop (fun _ => 0) idlePub = (idlePub, []) ∧
    (Stop (fun _ => 0) busyPub).fst.mHostsAndKeysRef = Option.none ∧
    Ev.dnsRefDeallocate 2 ∈ (Stop (fun _ => 0) busyPub).snd :=
  ⟨(stop_idempotent (fun _ => 0) busyPub).1,
   (stop_idempotent (fun _ => 0) idlePub).2.1 rfl,
   ((stop_idempotent (fun _ => 0) busyPub).2.2 rfl).2.2.2.2.2.1,
   ((stop_idempotent (fun _ => 0) busyPub).2.2 rfl).2.2.2.2.2.2.2 2 rfl⟩

/-- Claim C10: Start is not gated on the idle state — invoked in any state it
sets the state to ready, fires the state callback with ready and returns
success while leaving the maps untouched; by contrast Stop in the idle state
is a no op. -/
theorem start_always_succeeds :
    ∀ (updErr : Nat → Int) (pub : Publisher),
      ((Start pub).fst.mState = PubState.kReady ∧
       (Start pub).snd.fst = [Ev.stateCb PubState.kReady] ∧
       (Start pub).snd.snd = OtbrError.errNone ∧
       (Start pub).fst.mServiceRegistrations = pub.mServiceRegistrations ∧
       (Start pub).fst.mHostRegistrations = pub.mHostRegistrations ∧
       (Start pub).fst.mKeyRegistrations = pub.mKeyRegistrations ∧
       (Start pub).fst.mHostsAndKeysRef = pub.mHostsAndKeysRef) ∧
      (pub.mState = PubState.kIdle → Stop updErr pub = (pub, [])) := by
  intro updErr pub
  refine ⟨⟨rfl, rfl, rfl, rfl, rfl, rfl, rfl⟩, ?_⟩
  intro hidle
  have h : pub.mState ≠ PubState.kReady := by rw [hidle]; decide
  simp [Stop, h]

/-- Witness for claim C10: Start evaluated on a publisher that is already
ready (the state callback fires again) and the Stop contrast on an idle
publisher. -/
theorem start_always_succeeds_witness :
    (Start readyPub).snd.fst = [Ev.stateCb PubState.kReady] ∧
    (Start readyPub).fst.mState = PubState.kReady ∧
    Stop (fun _ => 0) idlePub = (idlePub, []) :=
  ⟨(start_always_succeeds (fun _ => 0) readyPub).1.2.1,
   (start_always_succeeds (fun _ => 0) readyPub).1.1,
   (start_always_succeeds (fun _ => 0) idlePub).2 rfl⟩

/-- Claim C3: every publish and unpublish operation invoked while the
publisher is idle answers the supplied callback synchronously with the
invalid state error and leaves the whole publisher state — all registration
maps and both subscription lists — unchanged. -/
theorem idle_gating_all_operations :
    ∀ (pub : Publisher), pub.mState = PubState.kIdle →
    ∀ (cErr rErr : Int) (recErrs : List Int) (updErr : Nat → Int)
      (hostName name ty : String) (subTypes : List String) (port : Nat)
      (txt : List Nat) (addrs : List Ip6Address) (keyData : List Nat) (cb : Nat),
      PublishServiceImpl cErr rErr pub hostName name ty subTypes port txt cb =
        (pub, [Ev.resultCb cb OtbrError.errInvalidState], OtbrError.errInvalidState) ∧
      PublishHostImpl cErr recErrs updErr pub name addrs cb =
        (pub, [Ev.resultCb cb OtbrError.errInvalidState], OtbrError.errInvalidState) ∧
      PublishKeyImpl cErr rErr pub name keyData cb =
        (pub, [Ev.resultCb cb OtbrError.errInvalidState], OtbrError.errInvalidState) ∧
      UnpublishService pub name ty cb =
        (pub, [Ev.resultCb cb OtbrError.errInvalidState]) ∧
      UnpublishHost updErr pub name cb =
        (pub, [Ev.resultCb cb OtbrError.errInvalidState]) ∧
      UnpublishKey pub name cb =
        (pub, [Ev.resultCb cb OtbrError.errInvalidState]) := by
  intro pub hidle cErr rErr recErrs updErr hostName name ty subTypes port txt addrs keyData cb
  have h : pub.mState ≠ PubState.kReady := by rw [hidle]; decide
  exact ⟨by simp [PublishServiceImpl, h], by simp [PublishHostImpl, h],
    by simp [PublishKeyImpl, h], by simp [UnpublishService, h],
    by simp [UnpublishHost, h], by simp [UnpublishKey, h]⟩

/-- Witness for claim C3: the idle gating evaluated on the concrete idle
publisher for a service publish and a host unpublish. -/
theorem idle_gating_witness :
    PublishServiceImpl 0 0 idlePub "h" "svc" "_test._udp" [] 80 [] 5 =
      (idlePub, [Ev.resultCb 5 OtbrError.errInvalidState], OtbrError.errInvalidState) ∧
    UnpublishHost (fun _ => 0) idlePub "hn" 6 =
      (idlePub, [Ev.resultCb 6 OtbrError.errInvalidState]) :=
  ⟨(idle_gating_all_operations idlePub rfl 0 0 [] (fun _ => 0) "h" "svc" "_test._udp" []
      80 [] [] [] 5).1,
   (idle_gating_all_operations idlePub rfl 0 0 [] (fun _ => 0) "h" "svc" "_test._udp" []
      80 [] [] [] 6).2.2.2.2.1⟩

/-- Claim C9: PublishHost called in the ready state with an empty address
list (and no duplicate entry taking over the callback) answers the callback
immediately with success, issues no daemon record registration and stores no
host registration entry — the publisher state is returned unchanged. -/
theorem publish_host_empty_addresses :
    ∀ (pub : Publisher) (cErr : Int) (recErrs : List Int) (updErr : Nat → Int)
      (name : String) (cb : Nat),
      pub.mState = PubState.kReady →
      findHostRegistration pub.mHostRegistrations name = Option.none →
      PublishHostImpl cErr recErrs updErr pub name [] cb =
        (pub, [Ev.resultCb cb OtbrError.errNone], OtbrError.errNone) := by
  intro pub cErr recErrs updErr name cb hready hfind
  obtain ⟨st, sr, hr, kr, ss, sh, ref, nx⟩ := pub
  simp only at hready hfind
  subst hready
  simp [PublishHostImpl, HandleDuplicateHostRegistration, hfind]

/-- Witness for claim C9: the empty address publish evaluated on the
concrete ready publisher. -/
theorem publish_host_empty_addresses_witness :
    PublishHostImpl 0 [] (fun _ => 0) readyPub "hn" [] 4 =
      (readyPub, [Ev.resultCb 4 OtbrError.errNone], OtbrError.errNone) :=
  publish_host_empty_addresses readyPub 0 [] (fun _ => 0) "hn" 4 rfl rfl

def isUpdateRecordEv : Ev → Bool
  | Ev.dnsUpdateRecord _ _ _ => true
  | _ => false

def isRemoveRecordEv : Ev → Bool
  | Ev.dnsRemoveRecord _ _ => true
  | _ => false

/-- A completed host registration holding two address records, used as
concrete input. -/
def twoAddrHostReg : HostRegistration :=
  ⟨"host", [globalAddr, loopbackAddr], 7, some 1,
   [(10, globalAddr), (11, loopbackAddr)], 0, true⟩

/-- Counterexample for claim C5: destroying a completed host registration
with two address records issues the goodbye update and the removal per
record, interleaved (update, remove, update, remove) — it does NOT issue the
two updates followed by the two removals: in the actual call sequence a
record removal precedes the second update. -/
theorem hostReg_dtor_not_batched :
    ¬ (((DnssdHostRegistrationDtor (fun _ => 0) twoAddrHostReg).countP
          (fun e => isUpdateRecordEv e) = 2) ∧
       ((DnssdHostRegistrationDtor (fun _ => 0) twoAddrHostReg).countP
          (fun e => isRemoveRecordEv e) = 2) ∧
       (∀ i j : Fin (DnssdHostRegistrationDtor (fun _ => 0) twoAddrHostReg).length,
         isUpdateRecordEv ((DnssdHostRegistrationDtor (fun _ => 0) twoAddrHostReg).get i) =
           true →
         isRemoveRecordEv ((DnssdHostRegistrationDtor (fun _ => 0) twoAddrHostReg).get j) =
           true →
         i.val < j.val)) := by
  decide

theorem dtorPairs_counts :
    ∀ (ref : Nat) (l : List (Nat × Ip6Address)),
      ((l.map (fun p =>
          [Ev.dnsUpdateRecord ref p.fst 1, Ev.dnsRemoveRecord ref p.fst])).flatten.countP
        (fun e => isUpdateRecordEv e) = l.length) ∧
      ((l.map (fun p =>
          [Ev.dnsUpdateRecord ref p.fst 1, Ev.dnsRemoveRecord ref p.fst])).flatten.countP
        (fun e => isRemoveRecordEv e) = l.length) := by
  intro ref l
  induction l with
  | nil => exact ⟨rfl, rfl⟩
  | cons p l ih =>
    refine ⟨?_, ?_⟩
    · rw [List.map_cons, List.flatten_cons, List.countP_append, ih.1]
      simp [List.countP_cons, isUpdateRecordEv, isRemoveRecordEv, Nat.add_comm]
    · rw [List.map_cons, List.flatten_cons, List.countP_append, ih.2]
      simp [List.countP_cons, isUpdateRecordEv, isRemoveRecordEv, Nat.add_comm]

/-- Claim C5 (amended): destroying a completed host registration holding N
address records issues, for each record in turn, one goodbye update (time to
live 1) immediately followed by the removal of that record — N update and N
removal calls in total, interleaved per record rather than all updates
before all removals — and the emitted sequence is the same for every
outcome of the update calls. -/
theorem hostReg_dtor_per_record_goodbye :
    ∀ (e1 e2 : Nat → Int) (reg : HostRegistration) (ref : Nat),
      reg.mServiceRef = some ref → reg.mCompleted = true →
      DnssdHostRegistrationDtor e1 reg =
        (reg.mRecordRefMap.map (fun p =>
          [Ev.dnsUpdateRecord ref p.fst 1, Ev.dnsRemoveRecord ref p.fst])).flatten ∧
      DnssdHostRegistrationDtor e1 reg = DnssdHostRegistrationDtor e2 reg ∧
      (DnssdHostRegistrationDtor e1 reg).countP (fun e => isUpdateRecordEv e) =
        reg.mRecordRefMap.length ∧
      (DnssdHostRegistrationDtor e1 reg).countP (fun e => isRemoveRecordEv e) =
        reg.mRecordRefMap.length := by
  intro e1 e2 reg ref href hcompleted
  have hshape : DnssdHostRegistrationDtor e1 reg =
      (reg.mRecordRefMap.map (fun p =>
        [Ev.dnsUpdateRecord ref p.fst 1, Ev.dnsRemoveRecord ref p.fst])).flatten := by
    simp [DnssdHostRegistrationDtor, href, hcompleted]
  refine ⟨hshape, ?_, ?_, ?_⟩
  · simp [DnssdHostRegistrationDtor]
  · rw [hshape]; exact (dtorPairs_counts ref reg.mRecordRefMap).1
  · rw [hshape]; exact (dtorPairs_counts ref reg.mRecordRefMap).2

/-- Witness for claim C5 amended: the destructor contract evaluated on the
concrete completed two record host registration, under two different update
outcome environments. -/
theorem hostReg_dtor_per_record_goodbye_witness :
    DnssdHostRegistrationDtor (fun _ => 0) twoAddrHostReg =
      [Ev.dnsUpdateRecord 1 10 1, Ev.dnsRemoveRecord 1 10,
       Ev.dnsUpdateRecord 1 11 1, Ev.dnsRemoveRecord 1 11] ∧
    DnssdHostRegistrationDtor (fun _ => 0) twoAddrHostReg =
      DnssdHostRegistrationDtor (fun _ => kDNSServiceErr_ServiceNotRunning) twoAddrHostReg ∧
    (DnssdHostRegistrationDtor (fun _ => 0) twoAddrHostReg).countP
      (fun e => isUpdateRecordEv e) = 2 :=
  ⟨(hostReg_dtor_per_record_goodbye (fun _ => 0)
      (fun _ => kDNSServiceErr_ServiceNotRunning) twoAddrHostReg 1 rfl rfl).1,
   (hostReg_dtor_per_record_goodbye (fun _ => 0)
      (fun _ => kDNSServiceErr_ServiceNotRunning) twoAddrHostReg 1 rfl rfl).2.1,
   (hostReg_dtor_per_record_goodbye (fun _ => 0)
      (fun _ => kDNSServiceErr_ServiceNotRunning) twoAddrHostReg 1 rfl rfl).2.2.1⟩

/-- Number of entries a registration map holds under one (name, type) key. -/
def serviceKeyCount (m : List ((String × String) × ServiceRegistration))
    (key : String × String) : Nat :=
  (m.filter (fun p => p.fst = key)).length

theorem eraseServiceRegistration_idem (m : List ((String × String) × ServiceRegistration))
    (k : String × String) :
    eraseServiceRegistration (eraseServiceRegistration m k) k =
      eraseServiceRegistration m k := by
  simp only [eraseServiceRegistration, List.filter_filter]
  congr 1
  funext p
  by_cases h : p.fst = k <;> simp [h]

theorem serviceKeyCount_erase_self (m : List ((String × String) × ServiceRegistration))
    (k : String × String) :
    serviceKeyCount (eraseServiceRegistration m k) k = 0 := by
  induction m with
  | nil => rfl
  | cons p m ih =>
    by_cases h : p.fst = k
    · simp [serviceKeyCount, eraseServiceRegistration, List.filter_cons, h]
    · simp [serviceKeyCount, eraseServiceRegistration, List.filter_cons, h]

theorem serviceKeyCount_erase_le (m : List ((String × String) × ServiceRegistration))
    (k k' : String × String) :
    serviceKeyCount (eraseServiceRegistration m k) k' ≤ serviceKeyCount m k' :=
  List.Sublist.length_le (List.Sublist.filter _ (List.filter_sublist m))

theorem serviceKeyCount_cons (k : String × String) (reg : ServiceRegistration)
    (m : List ((String × String) × ServiceRegistration)) (k' : String × String) :
    serviceKeyCount ((k, reg) :: m) k' =
      (if k = k' then 1 else 0) + serviceKeyCount m k' := by
  by_cases h : k = k' <;> simp [serviceKeyCount, List.filter_cons, h, Nat.add_comm]

theorem handleDuplicateService_map_shape
    (m : List ((String × String) × ServiceRegistration)) (hostName name ty : String)
    (sorted : List String) (port : Nat) (txt : List Nat) (cb : Nat) :
    (HandleDuplicateServiceRegistration m hostName name ty sorted port txt cb).fst = m ∨
    (HandleDuplicateServiceRegistration m hostName name ty sorted port txt cb).fst =
      eraseServiceRegistration m (name, ty) := by
  unfold HandleDuplicateServiceRegistration
  cases h : findServiceRegistration m (name, ty) with
  | none => left; rfl
  | some old =>
    by_cases hid : old.mHostName = hostName ∧ old.mSubTypeList = sorted ∧
        old.mPort = port ∧ old.mTxtData = txt
    · by_cases hc : old.mCompleted <;> simp [hid, hc]
    · right
      simp [hid, RemoveServiceRegistration, h]

theorem alloc_preserves_all_but_ref (cErr : Int) (pub : Publisher) :
    (AllocateHostsAndKeysRefIfUnallocated cErr pub).fst.mServiceRegistrations =
        pub.mServiceRegistrations ∧
    (AllocateHostsAndKeysRefIfUnallocated cErr pub).fst.mHostRegistrations =
        pub.mHostRegistrations ∧
    (AllocateHostsAndKeysRefIfUnallocated cErr pub).fst.mKeyRegistrations =
        pub.mKeyRegistrations ∧
    (AllocateHostsAndKeysRefIfUnallocated cErr pub).fst.mState = pub.mState := by
  unfold AllocateHostsAndKeysRefIfUnallocated
  cases pub.mHostsAndKeysRef with
  | none => by_cases h : cErr = 0 <;> simp [h]
  | some r => simp

theorem alloc_err_zero_when_createConnErr_zero (pub : Publisher) :
    (AllocateHostsAndKeysRefIfUnallocated 0 pub).snd.snd = 0 := by
  unfold AllocateHostsAndKeysRefIfUnallocated
  cases pub.mHostsAndKeysRef <;> simp

/-- Claim C1: after any PublishService call settles, every (name, type) key
still holds at most one entry in the service registration map; and when a
call supersedes an existing registration under the same key (same key,
different parameters), the superseded callback is invoked with the non
success aborted code as the very first event of the call, strictly before
the new registration is stored. -/
theorem publish_service_at_most_one_and_supersede_order :
    (∀ (cErr rErr : Int) (pub : Publisher) (hostName name ty : String)
        (subTypes : List String) (port : Nat) (txt : List Nat) (cb : Nat)
        (key : String × String),
      serviceKeyCount pub.mServiceRegistrations key ≤ 1 →
      serviceKeyCount
        (PublishServiceImpl cErr rErr pub hostName name ty subTypes port txt
            cb).fst.mServiceRegistrations key ≤ 1) ∧
    (∀ (pub : Publisher) (hostName name ty : String) (subTypes : List String)
        (port : Nat) (txt : List Nat) (cb : Nat) (old : ServiceRegistration),
      pub.mState = PubState.kReady →
      findServiceRegistration pub.mServiceRegistrations (name, ty) = some old →
      ¬ (old.mHostName = hostName ∧
         old.mSubTypeList = subTypes.insertionSort (fun a b => strLe a b = true) ∧
         old.mPort = port ∧ old.mTxtData = txt) →
      ∃ rest,
        (PublishServiceImpl 0 0 pub hostName name ty subTypes port txt cb).snd.fst =
          Ev.resultCb old.mCallback OtbrError.errAborted :: rest ∧
        Ev.storedService (name, ty) ∈ rest ∧
        OtbrError.errAborted ≠ OtbrError.errNone) := by
  constructor
  · intro cErr rErr pub hostName name ty subTypes port txt cb key hk
    obtain ⟨st, sr, hr, kr, ss, sh, cref, nx⟩ := pub
    simp only at hk
    cases st with
    | kIdle => simpa [PublishServiceImpl] using hk
    | kReady =>
      unfold PublishServiceImpl
      simp only [if_true]
      rcases hdup : HandleDuplicateServiceRegistration sr hostName name ty
          (subTypes.insertionSort (fun a b => strLe a b = true)) port txt cb with
        ⟨m1, evs1, cbOpt⟩
      have hm1count : serviceKeyCount m1 key ≤ 1 := by
        have hm1 := handleDuplicateService_map_shape sr hostName name ty
          (subTypes.insertionSort (fun a b => strLe a b = true)) port txt cb
        rw [hdup] at hm1
        rcases hm1 with h | h <;> simp only at h
        · rw [h]; exact hk
        · rw [h]; exact le_trans (serviceKeyCount_erase_le _ _ _) hk
      cases cbOpt with
      | none => simpa using hm1count
      | some cb2 =>
        cases cref with
        | none =>
          by_cases hc : cErr = 0
          · by_cases hr2 : rErr = 0
            · simp only [AllocateHostsAndKeysRefIfUnallocated, hc, hr2, if_true, reduceIte]
              simp only [serviceKeyCount_cons]
              by_cases hkey : (name, ty) = key
              · rw [← hkey]
                simp [serviceKeyCount_erase_self]
              · simp only [hkey, if_false]
                simpa [hkey] using
                  le_trans (serviceKeyCount_erase_le m1 (name, ty) key) hm1count
            · simp only [AllocateHostsAndKeysRefIfUnallocated, hc, hr2, if_true, if_false,
                reduceIte]
              simpa using hm1count
          · simp only [AllocateHostsAndKeysRefIfUnallocated, hc, if_false, reduceIte]
            simpa [hc] using hm1count
        | some c =>
          by_cases hr2 : rErr = 0
          · simp only [AllocateHostsAndKeysRefIfUnallocated, hr2, if_true, reduceIte]
            simp only [serviceKeyCount_cons]
            by_cases hkey : (name, ty) = key
            · rw [← hkey]
              simp [serviceKeyCount_erase_self]
            · simp only [hkey, if_false]
              simpa [hkey] using
                le_trans (serviceKeyCount_erase_le m1 (name, ty) key) hm1count
          · simp only [AllocateHostsAndKeysRefIfUnallocated, hr2, if_true, if_false,
              reduceIte]
            simpa using hm1count
  · intro pub hostName name ty subTypes port txt cb old hready hfind hdiff
    obtain ⟨st, sr, hr, kr, ss, sh, cref, nx⟩ := pub
    simp only at hready hfind
    subst hready
    have hdup : HandleDuplicateServiceRegistration sr hostName name ty
        (subTypes.insertionSort (fun a b => strLe a b = true)) port txt cb =
        (eraseServiceRegistration sr (name, ty),
         Ev.resultCb old.mCallback OtbrError.errAborted :: DnssdServiceRegistrationDtor old,
         some cb) := by
      simp [HandleDuplicateServiceRegistration, hfind, hdiff, RemoveServiceRegistration]
    unfold PublishServiceImpl
    simp only [if_true]
    rw [hdup]
    cases cref with
    | none =>
      refine ⟨DnssdServiceRegistrationDtor old ++ [Ev.dnsCreateConnection nx] ++
        [Ev.dnsServiceRegister (nx + 1) name
          (MakeRegType ty (subTypes.insertionSort (fun a b => strLe a b = true))) port,
         Ev.storedService (name, ty)], ?_, ?_, by decide⟩
      · simp [AllocateHostsAndKeysRefIfUnallocated]
      · simp
    | some c =>
      refine ⟨DnssdServiceRegistrationDtor old ++ [] ++
        [Ev.dnsServiceRegister nx name
          (MakeRegType ty (subTypes.insertionSort (fun a b => strLe a b = true))) port,
         Ev.storedService (name, ty)], ?_, ?_, by decide⟩
      · simp [AllocateHostsAndKeysRefIfUnallocated]
      · simp

/-- Witness for claim C1: the at most one entry bound and the supersede
ordering discharged on the concrete ready publisher holding one completed
registration under the ("svc", "_test._udp") key, superseded by a publish
with a different port. -/
theorem publish_service_at_most_one_witness :
    serviceKeyCount
      (PublishServiceImpl 0 0 busyPub "h" "svc" "_test._udp" [] 81
          [] 4).fst.mServiceRegistrations ("svc", "_test._udp") ≤ 1 ∧
    (∃ rest,
      (PublishServiceImpl 0 0 busyPub "h" "svc" "_test._udp" [] 81 [] 4).snd.fst =
        Ev.resultCb 3 OtbrError.errAborted :: rest ∧
      Ev.storedService ("svc", "_test._udp") ∈ rest ∧
      OtbrError.errAborted ≠ OtbrError.errNone) :=
  ⟨publish_service_at_most_one_and_supersede_order.1 0 0 busyPub "h" "svc" "_test._udp" []
      81 [] 4 ("svc", "_test._udp") (by decide),
   publish_service_at_most_one_and_supersede_order.2 busyPub "h" "svc" "_test._udp" [] 81
      [] 4 ⟨"h", "svc", "_test._udp", [], 80, [], 3, some 8, true⟩ rfl (by decide)
      (by decide)⟩

/-- Claim C6: no service registration ever deallocates the shared hosts and
keys connection handle. The destructor of a service registration deallocates
only the handle that registration holds, and for every registration created
by a successful PublishService the held handle is a fresh subordinate
reference distinct from the shared connection handle, which therefore stays
allocated when the registration is destroyed (on unpublish, failure or
Stop); only the Publisher deallocates the shared handle. -/
theorem service_registration_never_frees_shared_ref :
    (∀ (reg : ServiceRegistration) (conn : Nat),
      reg.mServiceRef ≠ some conn →
      Ev.dnsRefDeallocate conn ∉ DnssdServiceRegistrationDtor reg) ∧
    (∀ (pub : Publisher) (hostName name ty : String) (subTypes : List String)
        (port : Nat) (txt : List Nat) (cb : Nat),
      pub.mState = PubState.kReady →
      findServiceRegistration pub.mServiceRegistrations (name, ty) = Option.none →
      (∀ r, pub.mHostsAndKeysRef = some r → r < pub.nextRef) →
      ∃ reg newRef conn,
        findServiceRegistration
          (PublishServiceImpl 0 0 pub hostName name ty subTypes port txt
              cb).fst.mServiceRegistrations (name, ty) = some reg ∧
        reg.mServiceRef = some newRef ∧
        (PublishServiceImpl 0 0 pub hostName name ty subTypes port txt
            cb).fst.mHostsAndKeysRef = some conn ∧
        newRef ≠ conn ∧
        DnssdServiceRegistrationDtor reg = [Ev.dnsRefDeallocate newRef] ∧
        Ev.dnsRefDeallocate conn ∉ DnssdServiceRegistrationDtor reg) := by
  constructor
  · intro reg conn hne
    cases h : reg.mServiceRef with
    | none => simp [DnssdServiceRegistrationDtor, h]
    | some r =>
      have hrc : r ≠ conn := by
        intro heq
        exact hne (heq ▸ h)
      simp [DnssdServiceRegistrationDtor, h]
      omega
  · intro pub hostName name ty subTypes port txt cb hready hfind hinv
    obtain ⟨st, sr, hr, kr, ss, sh, cref, nx⟩ := pub
    simp only at hready hfind hinv
    subst hready
    have hdup : HandleDuplicateServiceRegistration sr hostName name ty
        (subTypes.insertionSort (fun a b => strLe a b = true)) port txt cb =
        (sr, [], some cb) := by
      simp [HandleDuplicateServiceRegistration, hfind]
    unfold PublishServiceImpl
    simp only [if_true]
    rw [hdup]
    cases cref with
    | none =>
      refine ⟨⟨hostName, name, ty, subTypes.insertionSort (fun a b => strLe a b = true),
        port, txt, cb, some (nx + 1), false⟩, nx + 1, nx, ?_, rfl, ?_, by omega, rfl, ?_⟩
      · simp [AllocateHostsAndKeysRefIfUnallocated, findServiceRegistration]
      · simp [AllocateHostsAndKeysRefIfUnallocated]
      · simp only [DnssdServiceRegistrationDtor, List.mem_singleton]
        intro hcontra
        have : nx = nx + 1 := by
          injection hcontra
        omega
    | some c =>
      have hc : c < nx := hinv c rfl
      refine ⟨⟨hostName, name, ty, subTypes.insertionSort (fun a b => strLe a b = true),
        port, txt, cb, some nx, false⟩, nx, c, ?_, rfl, ?_, by omega, rfl, ?_⟩
      · simp [AllocateHostsAndKeysRefIfUnallocated, findServiceRegistration]
      · simp [AllocateHostsAndKeysRefIfUnallocated]
      · simp only [DnssdServiceRegistrationDtor, List.mem_singleton]
        intro hcontra
        have : c = nx := by
          injection hcontra
        omega

/-- Witness for claim C6: the fresh subordinate handle property discharged
on the concrete ready publisher that already holds the shared connection. -/
theorem service_registration_never_frees_shared_ref_witness :
    ∃ reg newRef conn,
      findServiceRegistration
        (PublishServiceImpl 0 0 busyPub "h" "svc2" "_test._udp" [] 80 []
            12).fst.mServiceRegistrations ("svc2", "_test._udp") = some reg ∧
      reg.mServiceRef = some newRef ∧
      (PublishServiceImpl 0 0 busyPub "h" "svc2" "_test._udp" [] 80 []
          12).fst.mHostsAndKeysRef = some conn ∧
      newRef ≠ conn ∧
      DnssdServiceRegistrationDtor reg = [Ev.dnsRefDeallocate newRef] ∧
      Ev.dnsRefDeallocate conn ∉ DnssdServiceRegistrationDtor reg :=
  service_registration_never_frees_shared_ref.2 busyPub "h" "svc2" "_test._udp" [] 80 []
    12 rfl (by decide) (by intro r h; simp [busyPub] at h ⊢; omega)

end OtbrMdns
